import Mathlib

/-!
Verification of the `micro-frontend-with-nx` repository: an Angular host
application (`dashboard`) whose route table lazily loads a remote module
(`AdminPanelModule`) from a second application (`admin`) via webpack module
federation.  The embedding below translates the repository's declarations:
the host route table and `loadChildren` resolver from
`apps/dashboard/src/app/app.module.ts`, the admin root module and
`AdminPanelModule` from the admin app's sources, and the module-federation
and dev-server configuration recorded in the README.
-/

/-- Which application a shell component belongs to. -/
inductive AppId where
  | dashboard
  | admin
deriving DecidableEq, Repr

/-- The components declared in the repository: each app's `AppComponent`
shell and the admin app's `AdminPanelComponent`. -/
inductive Component where
  | AppComponent (app : AppId)
  | AdminPanelComponent
deriving DecidableEq, Repr

/-- The NgModule classes that cross a module boundary by name: the single
module the remote exposes. -/
inductive NgModuleId where
  | AdminPanelModule
deriving DecidableEq, Repr

/-- The options object passed to `loadRemoteModule` in
`apps/dashboard/src/app/app.module.ts`. -/
structure LoadRemoteModuleOptions where
  remoteEntry : String
  remoteName : String
  exposedModule : String
deriving DecidableEq, Repr

/-- A JavaScript promise outcome: fulfilled with a value or rejected with an
error (errors are modelled as strings). -/
inductive Promise (α : Type) where
  | fulfilled (value : α)
  | rejected (error : String)
deriving DecidableEq, Repr

/-- `.then(onFulfilled)` with no rejection handler, as written in the host's
`loadChildren`: it maps a fulfilled value and lets a rejection pass through
unchanged. -/
def Promise.thenMap {α β : Type} (p : Promise α) (f : α → β) : Promise β :=
  match p with
  | .fulfilled v => .fulfilled (f v)
  | .rejected e => .rejected e

/-- The object a remote entry delivers for an exposed module: its named
exports, as an association list from export name to NgModule class. -/
abbrev ModuleObject := List (String × NgModuleId)

/-- JavaScript property access `m.name`: `none` models `undefined` when the
export is absent. -/
def lookupExport (m : ModuleObject) (name : String) : Option NgModuleId :=
  (m.find? (fun e => e.1 = name)).map (fun e => e.2)

/-- The external world `loadRemoteModule` talks to: what promise the network
and federation runtime produce for given options.  The repository treats
this library as an opaque collaborator, so it is a parameter. -/
abbrev RemoteEnv := LoadRemoteModuleOptions → Promise ModuleObject

/-- The third-party `loadRemoteModule` call, instrumented: it records the
options it was invoked with and returns whatever the environment answers. -/
def loadRemoteModule (env : RemoteEnv) (options : LoadRemoteModuleOptions) :
    List LoadRemoteModuleOptions × Promise ModuleObject :=
  ([options], env options)

/-- The options literal the host passes to `loadRemoteModule`
(`apps/dashboard/src/app/app.module.ts`, lines 12-15). -/
def adminRemoteOptions : LoadRemoteModuleOptions :=
  { remoteEntry := "http://localhost:4201/remoteEntry.js"
    remoteName := "admin"
    exposedModule := "./Module" }

/-- The host's `loadChildren` thunk:
`() => loadRemoteModule({...}).then((m) => m.AdminPanelModule)`.
It returns the list of `loadRemoteModule` invocations it performed together
with the resulting promise. -/
def dashboardLoadChildren (env : RemoteEnv) :
    List LoadRemoteModuleOptions × Promise (Option NgModuleId) :=
  let r := loadRemoteModule env adminRemoteOptions
  (r.1, r.2.thenMap (fun m => lookupExport m "AdminPanelModule"))

/-- A route table entry.  `component` renders directly; `loadChildren`
lazily resolves an NgModule whose child routes take over. -/
structure Route where
  path : String
  component : Option Component := none
  loadChildren : Option (RemoteEnv → List LoadRemoteModuleOptions × Promise (Option NgModuleId)) := none

/-- Router configuration options passed to `RouterModule.forRoot`. -/
structure RouterConfig where
  initialNavigation : String
deriving DecidableEq, Repr

/-- An entry of an NgModule's `imports` array. -/
inductive NgImport where
  | BrowserModule
  | CommonModule
  | RouterModuleForRoot (routes : List Route) (config : RouterConfig)
  | RouterModuleForChild (routes : List Route)
  | NgModuleImport (m : NgModuleId)

/-- An `@NgModule({...})` declaration. -/
structure NgModuleDecl where
  declarations : List Component
  imports : List NgImport
  providers : List String := []
  bootstrap : List Component := []
  exportsRouterModule : Bool := false

/-- The admin app's `routes` constant in `admin-panel.module.ts`:
`[{ path: '', component: AdminPanelComponent }]`. -/
def adminPanelRoutes : List Route :=
  [{ path := "", component := some Component.AdminPanelComponent }]

/-- `AdminPanelModule` from `admin-panel.module.ts`: declares
`AdminPanelComponent`, imports `CommonModule` and
`RouterModule.forChild(routes)`, exports `RouterModule`. -/
def adminPanelModuleDecl : NgModuleDecl :=
  { declarations := [Component.AdminPanelComponent]
    imports := [NgImport.CommonModule, NgImport.RouterModuleForChild adminPanelRoutes]
    exportsRouterModule := true }

/-- Resolve an NgModule class name to its declaration. -/
def moduleDecl : NgModuleId → NgModuleDecl
  | NgModuleId.AdminPanelModule => adminPanelModuleDecl

/-- The host's `routes` constant in `apps/dashboard/src/app/app.module.ts`:
a single entry with path `admin-panel` and the remote `loadChildren`. -/
def dashboardRoutes : List Route :=
  [{ path := "admin-panel", loadChildren := some dashboardLoadChildren }]

/-- The dashboard app's root `AppModule`
(`apps/dashboard/src/app/app.module.ts`). -/
def dashboardAppModule : NgModuleDecl :=
  { declarations := [Component.AppComponent AppId.dashboard]
    imports := [NgImport.BrowserModule,
                NgImport.RouterModuleForRoot dashboardRoutes { initialNavigation := "enabled" }]
    providers := []
    bootstrap := [Component.AppComponent AppId.dashboard] }

/-- The admin app's root `AppModule`: `RouterModule.forRoot([])` plus the
imported `AdminPanelModule`. -/
def adminAppModule : NgModuleDecl :=
  { declarations := [Component.AppComponent AppId.admin]
    imports := [NgImport.BrowserModule,
                NgImport.RouterModuleForRoot [] { initialNavigation := "enabled" },
                NgImport.NgModuleImport NgModuleId.AdminPanelModule]
    providers := []
    bootstrap := [Component.AppComponent AppId.admin] }

/-- The routes an NgModule registers through `RouterModule.forRoot`. -/
def forRootRoutesOf (d : NgModuleDecl) : List Route :=
  (d.imports.map (fun i => match i with
    | NgImport.RouterModuleForRoot rs _ => rs
    | _ => [])).flatten

/-- The router configurations an NgModule passes to `RouterModule.forRoot`. -/
def forRootConfigsOf (d : NgModuleDecl) : List RouterConfig :=
  d.imports.filterMap (fun i => match i with
    | NgImport.RouterModuleForRoot _ c => some c
    | _ => none)

/-- The routes an NgModule registers through `RouterModule.forChild`. -/
def forChildRoutesOf (d : NgModuleDecl) : List Route :=
  (d.imports.map (fun i => match i with
    | NgImport.RouterModuleForChild rs => rs
    | _ => [])).flatten

/-- The NgModules an NgModule imports. -/
def importedModules (d : NgModuleDecl) : List NgModuleId :=
  d.imports.filterMap (fun i => match i with
    | NgImport.NgModuleImport m => some m
    | _ => none)

/-- Every route registered in an application rooted at `d`: its own
`forRoot` and `forChild` routes plus the `forChild` routes of the NgModules
it imports. -/
def appRegisteredRoutes (d : NgModuleDecl) : List Route :=
  forRootRoutesOf d ++ forChildRoutesOf d ++
    ((importedModules d).map (fun m => forChildRoutesOf (moduleDecl m))).flatten

/-- The `ModuleFederationPlugin` options of the admin app's
`webpack.config.js` as recorded in the README: name `admin`, entry filename
`remoteEntry.js`, and the `exposes` map from exposed path to source file. -/
structure FederationConfig where
  name : String
  filename : String
  exposes : List (String × String)
deriving DecidableEq, Repr

/-- The admin app's federation configuration (README, "Configure webpack"). -/
def adminFederationConfig : FederationConfig :=
  { name := "admin"
    filename := "remoteEntry.js"
    exposes := [("./Module", "./apps/admin/src/app/admin-panel/admin-panel.module.ts")] }

/-- The exports of `admin-panel.module.ts`, the file the admin app exposes:
its single export is the `AdminPanelModule` class. -/
def adminPanelFileExports : ModuleObject :=
  [("AdminPanelModule", NgModuleId.AdminPanelModule)]

/-- A dev server started by `ng add @angular-architects/module-federation
--project <name> --port <port>` (README, "Enable module federation"). -/
structure DevServer where
  project : String
  port : Nat
deriving DecidableEq, Repr

/-- The two dev-mode HTTP endpoints: the dashboard host on port 4200 and the
admin remote on port 4201. -/
def devServers : List DevServer :=
  [{ project := "dashboard", port := 4200 }, { project := "admin", port := 4201 }]

/-- The development environment the README describes: the admin remote entry
is served at `http://localhost:4201/remoteEntry.js` under the remote name
`admin`, and a request for an exposed path delivers the exposed file's
exports; anything else fails. -/
def devEnv : RemoteEnv := fun opts =>
  if opts.remoteEntry = "http://localhost:" ++ toString 4201 ++ "/remoteEntry.js" ∧
      opts.remoteName = adminFederationConfig.name then
    match adminFederationConfig.exposes.find? (fun e => e.1 = opts.exposedModule) with
    | some _ => Promise.fulfilled adminPanelFileExports
    | none => Promise.rejected "exposed module not found"
  else Promise.rejected "remote unreachable"

/-- Resolve a navigation in a route table: find the entry whose path
matches; render its component, or run its `loadChildren`, resolve the
loaded NgModule's `forChild` routes and render their empty-path entry. -/
def renderAtPath (env : RemoteEnv) (routes : List Route) (path : String) :
    Option Component :=
  match routes.find? (fun r => r.path = path) with
  | none => none
  | some r =>
    match r.component with
    | some c => some c
    | none =>
      match r.loadChildren with
      | none => none
      | some lc =>
        match (lc env).2 with
        | Promise.fulfilled (some m) =>
          match (forChildRoutesOf (moduleDecl m)).find? (fun cr => cr.path = "") with
          | some cr => cr.component
          | none => none
        | _ => none

/-- The state the running system carries: the three route tables declared in
the repository and the component currently rendered in the host. -/
structure AppState where
  hostRoutes : List Route
  adminRootRoutes : List Route
  adminPanelChildRoutes : List Route
  rendered : Option Component

/-- The state at startup: each route table as declared, nothing rendered. -/
def initialAppState : AppState :=
  { hostRoutes := dashboardRoutes
    adminRootRoutes := forRootRoutesOf adminAppModule
    adminPanelChildRoutes := adminPanelRoutes
    rendered := none }

/-- One navigation in the host: the only thing it changes is what is
rendered; every route table is read, never written. -/
def navigate (env : RemoteEnv) (s : AppState) (path : String) : AppState :=
  { s with rendered := renderAtPath env s.hostRoutes path }

/-- A sequence of navigations, performed left to right. -/
def navigateAll (env : RemoteEnv) (s : AppState) : List String → AppState
  | [] => s
  | p :: ps => navigateAll env (navigate env s p) ps

/-- C1: the host route table has exactly one entry, its path is
`admin-panel`, and its `loadChildren` invokes `loadRemoteModule` exactly
once, with the fixed remoteEntry, remoteName and exposedModule arguments,
under every environment. -/
theorem host_route_table_single_remote_route :
    dashboardRoutes =
      [{ path := "admin-panel", loadChildren := some dashboardLoadChildren }] ∧
    (∀ env : RemoteEnv, (dashboardLoadChildren env).1 = [adminRemoteOptions]) ∧
    adminRemoteOptions =
      { remoteEntry := "http://localhost:4201/remoteEntry.js"
        remoteName := "admin"
        exposedModule := "./Module" } :=
  ⟨rfl, fun _ => rfl, rfl⟩

/-- C2: whenever the remote-module load rejects, the `admin-panel` route's
`loadChildren` promise rejects with the very same error — no catch handler,
no recovery or fallback value — and still only one `loadRemoteModule` call
was made, so there is no retry. -/
theorem remote_load_failure_propagates (env : RemoteEnv) (e : String)
    (h : env adminRemoteOptions = Promise.rejected e) :
    (dashboardLoadChildren env).1 = [adminRemoteOptions] ∧
    (dashboardLoadChildren env).2 = Promise.rejected e := by
  refine ⟨rfl, ?_⟩
  simp [dashboardLoadChildren, loadRemoteModule, h, Promise.thenMap]

/-- Witness for C2 at the concrete environment that always rejects. -/
theorem remote_load_failure_propagates_witness :
    (dashboardLoadChildren (fun _ => Promise.rejected "remote unreachable")).1 =
      [adminRemoteOptions] ∧
    (dashboardLoadChildren (fun _ => Promise.rejected "remote unreachable")).2 =
      Promise.rejected "remote unreachable" :=
  remote_load_failure_propagates
    (fun _ => Promise.rejected "remote unreachable") "remote unreachable" rfl

/-- C3: whenever the remote-module load fulfills with a module object, the
route's `loadChildren` promise fulfills with exactly that object's
`AdminPanelModule` property and nothing else derived from it. -/
theorem remote_load_success_resolves_admin_panel_module (env : RemoteEnv)
    (mo : ModuleObject)
    (h : env adminRemoteOptions = Promise.fulfilled mo) :
    (dashboardLoadChildren env).2 =
      Promise.fulfilled (lookupExport mo "AdminPanelModule") := by
  simp [dashboardLoadChildren, loadRemoteModule, h, Promise.thenMap]

/-- Witness for C3 at the development environment: the resolved unit is the
`AdminPanelModule` class. -/
theorem remote_load_success_resolves_admin_panel_module_witness :
    (dashboardLoadChildren devEnv).2 =
      Promise.fulfilled (some NgModuleId.AdminPanelModule) := by
  have h :=
    remote_load_success_resolves_admin_panel_module devEnv adminPanelFileExports rfl
  rw [h]
  rfl

/-- C4: the admin app exposes exactly one unit, `./Module`, the file whose
single export is `AdminPanelModule`; that module declares exactly one
component and registers exactly one routed sub-view, the empty path mapped
to `AdminPanelComponent`. -/
theorem admin_exposes_single_unit :
    adminFederationConfig.exposes.length = 1 ∧
    adminFederationConfig.exposes =
      [("./Module", "./apps/admin/src/app/admin-panel/admin-panel.module.ts")] ∧
    adminPanelFileExports = [("AdminPanelModule", NgModuleId.AdminPanelModule)] ∧
    (moduleDecl NgModuleId.AdminPanelModule).declarations =
      [Component.AdminPanelComponent] ∧
    forChildRoutesOf (moduleDecl NgModuleId.AdminPanelModule) =
      [{ path := "", component := some Component.AdminPanelComponent }] :=
  ⟨rfl, rfl, rfl, rfl, rfl⟩

/-- C5: under the development environment, resolving the host's
`admin-panel` route yields `AdminPanelModule`, and navigating to
`admin-panel` renders `AdminPanelComponent` through that module's
empty-path child route. -/
theorem navigating_admin_path_renders_admin_view :
    (dashboardLoadChildren devEnv).2 =
      Promise.fulfilled (some NgModuleId.AdminPanelModule) ∧
    (forChildRoutesOf (moduleDecl NgModuleId.AdminPanelModule)).find?
      (fun cr => cr.path = "") =
      some { path := "", component := some Component.AdminPanelComponent } ∧
    renderAtPath devEnv dashboardRoutes "admin-panel" =
      some Component.AdminPanelComponent :=
  ⟨rfl, rfl, rfl⟩

/-- C6: no sequence of navigations, under any environment, changes any of
the declared route tables: after `navigateAll` every table equals its
initial declaration. -/
theorem route_tables_immutable (env : RemoteEnv) (paths : List String) :
    (navigateAll env initialAppState paths).hostRoutes = dashboardRoutes ∧
    (navigateAll env initialAppState paths).adminRootRoutes =
      forRootRoutesOf adminAppModule ∧
    (navigateAll env initialAppState paths).adminPanelChildRoutes =
      adminPanelRoutes := by
  have key : ∀ (ps : List String) (s : AppState),
      (navigateAll env s ps).hostRoutes = s.hostRoutes ∧
      (navigateAll env s ps).adminRootRoutes = s.adminRootRoutes ∧
      (navigateAll env s ps).adminPanelChildRoutes = s.adminPanelChildRoutes := by
    intro ps
    induction ps with
    | nil => intro _; exact ⟨rfl, rfl, rfl⟩
    | cons p ps ih => intro s; exact ih (navigate env s p)
  exact key paths initialAppState

/-- C7: development mode has exactly two HTTP endpoints, the dashboard on
port 4200 and the admin remote on port 4201, and the only remote entry URL
the host ever requests is `http://localhost:4201/remoteEntry.js`, on the
admin port. -/
theorem dev_endpoints_and_remote_entry :
    devServers.length = 2 ∧
    devServers.find? (fun s => s.project = "dashboard") =
      some { project := "dashboard", port := 4200 } ∧
    devServers.find? (fun s => s.project = "admin") =
      some { project := "admin", port := 4201 } ∧
    (∀ env : RemoteEnv,
      ((dashboardRoutes.map (fun r =>
          match r.loadChildren with
          | some lc => (lc env).1
          | none => [])).flatten).map (fun o => o.remoteEntry) =
        ["http://localhost:" ++ toString 4201 ++ "/remoteEntry.js"]) :=
  ⟨rfl, rfl, rfl, fun _ => rfl⟩

/-- C8: if the remote-module load fulfills with a module object lacking an
`AdminPanelModule` export, the route's `loadChildren` promise still
fulfills — with `undefined` (`none`) — rather than rejecting. -/
theorem missing_export_fulfills_undefined (env : RemoteEnv)
    (mo : ModuleObject)
    (h1 : env adminRemoteOptions = Promise.fulfilled mo)
    (h2 : lookupExport mo "AdminPanelModule" = none) :
    (dashboardLoadChildren env).2 = Promise.fulfilled none := by
  simp [dashboardLoadChildren, loadRemoteModule, h1, Promise.thenMap, h2]

/-- Witness for C8 at the concrete empty module object. -/
theorem missing_export_fulfills_undefined_witness :
    (dashboardLoadChildren (fun _ => Promise.fulfilled [])).2 =
      Promise.fulfilled none :=
  missing_export_fulfills_undefined (fun _ => Promise.fulfilled []) [] rfl rfl

/-- C9: the admin app's own root route table (`RouterModule.forRoot([])`)
is empty; every registered route comes from `AdminPanelModule`'s `forChild`
registration, so the only navigable path is the empty path, rendering
`AdminPanelComponent`. -/
theorem admin_root_routes_empty_only_child_path :
    forRootRoutesOf adminAppModule = [] ∧
    appRegisteredRoutes adminAppModule = adminPanelRoutes ∧
    adminPanelRoutes =
      [{ path := "", component := some Component.AdminPanelComponent }] ∧
    adminPanelRoutes.map (fun r => r.path) = [""] :=
  ⟨rfl, rfl, rfl, rfl⟩

/-- C10: both root modules bootstrap exactly one component, the app's
`AppComponent`, and both configure the router with initialNavigation
`enabled`. -/
theorem both_apps_bootstrap_single_shell :
    dashboardAppModule.bootstrap = [Component.AppComponent AppId.dashboard] ∧
    adminAppModule.bootstrap = [Component.AppComponent AppId.admin] ∧
    dashboardAppModule.bootstrap.length = 1 ∧
    adminAppModule.bootstrap.length = 1 ∧
    forRootConfigsOf dashboardAppModule = [{ initialNavigation := "enabled" }] ∧
    forRootConfigsOf adminAppModule = [{ initialNavigation := "enabled" }] :=
  ⟨rfl, rfl, rfl, rfl, rfl, rfl⟩
